import Mathlib

/-!
Verification of the Shelyak spectrograph control program
(`spectrograph.py`): a driver for the Velleman K8056 8-channel relay
card (5-byte framed serial protocol with checksum, configurable repeat
and inter-send wait) and an observing-mode controller mapping named
modes (object / dark / flat / thar) to on/off commands over four ports.

The embedding is shallow: serial writes and sleeps become entries of an
explicit event trace, Python integers become `Int` (Python's `x & 255`
on arbitrary ints equals `x % 256` with Lean's `Int.emod`), Python
exceptions become `Except String`, and Python `dict`s (insertion
ordered) become association lists.
-/

set_option autoImplicit false

/-- One observable action of the driver at the transport boundary:
a write of a raw frame, or a sleep of the configured wait. -/
inductive Event where
  | write (frame : List Int)
  | sleep (seconds : Nat)
  deriving DecidableEq, Repr

/-- Driver state for the K8056 relay card: the configured repeat count
(`repeat` in the source) and inter-send wait (`wait`).  The serial
handle itself is the out-of-scope transport; its observable behaviour
is the event trace the methods below return.  Constructed in the
source as `K8056(device, repeat=0, wait=0)`. -/
structure K8056 where
  repeatCount : Nat
  wait : Nat
  deriving DecidableEq, Repr

/-- `K8056._process(instruction, byte, address)`: computes
`cksum = (243 - instruction - byte - address) & 255`, then
`repeat + 1` times writes the frame
`[13, address, instruction, byte, cksum]` and sleeps `wait`. -/
def K8056.process (d : K8056) (instruction byte address : Int) : List Event :=
  let cksum : Int := (243 - instruction - byte - address) % 256
  List.flatten (List.replicate (d.repeatCount + 1)
    [Event.write [13, address, instruction, byte, cksum], Event.sleep d.wait])

/-- `K8056.set(relay, address=1)`: raises `invalid relay number` unless
`0 < relay < 10`, else `_process(83, relay + 48, address & 255)`. -/
def K8056.set (d : K8056) (relay address : Int) : Except String (List Event) :=
  if 0 < relay ∧ relay < 10 then
    Except.ok (d.process 83 (relay + 48) (address % 256))
  else
    Except.error "invalid relay number"

/-- `K8056.clear(relay, address=1)`: same validation, instruction 67. -/
def K8056.clear (d : K8056) (relay address : Int) : Except String (List Event) :=
  if 0 < relay ∧ relay < 10 then
    Except.ok (d.process 67 (relay + 48) (address % 256))
  else
    Except.error "invalid relay number"

/-- `K8056.toggle(relay, address=1)`: same validation, instruction 84. -/
def K8056.toggle (d : K8056) (relay address : Int) : Except String (List Event) :=
  if 0 < relay ∧ relay < 10 then
    Except.ok (d.process 84 (relay + 48) (address % 256))
  else
    Except.error "invalid relay number"

/-- `K8056.set_address(new=1, address=1)`:
`_process(65, new & 255, address & 255)`; no relay validation. -/
def K8056.set_address (d : K8056) (new address : Int) : List Event :=
  d.process 65 (new % 256) (address % 256)

/-- `K8056.send_byte(num, address=1)`: `_process(66, num & 255, address & 255)`. -/
def K8056.send_byte (d : K8056) (num address : Int) : List Event :=
  d.process 66 (num % 256) (address % 256)

/-- `K8056.emergency_stop()`: `_process(69, 1, 1)`. -/
def K8056.emergency_stop (d : K8056) : List Event :=
  d.process 69 1 1

/-- `K8056.force_address()`: `_process(70, 1, 1)`. -/
def K8056.force_address (d : K8056) : List Event :=
  d.process 70 1 1

/-- `K8056.get_address()`: `_process(68, 1, 1)`. -/
def K8056.get_address (d : K8056) : List Event :=
  d.process 68 1 1

/-- The frames actually written in an event trace (sleeps dropped). -/
def writesOf (evs : List Event) : List (List Int) :=
  evs.filterMap fun e =>
    match e with
    | Event.write f => some f
    | Event.sleep _ => none

/-- `x` fits in an unsigned byte. -/
def isByte (x : Int) : Bool :=
  0 ≤ x && x < 256

/-- The Frame invariant: exactly 5 bytes
`[13, address, instruction, data, checksum]`, every entry an unsigned
byte, with `checksum = (243 - instruction - data - address) mod 256`. -/
def checkFrame (f : List Int) : Bool :=
  match f with
  | [stx, a, i, b, c] =>
    stx == 13 && [stx, a, i, b, c].all isByte && c == (243 - i - b - a) % 256
  | _ => false

/-- Every frame written in the trace satisfies the Frame invariant. -/
def allFramesOk (evs : List Event) : Bool :=
  (writesOf evs).all checkFrame

/-- The event trace of a fallible driver call; a raised exception
transmits nothing. -/
def eventsOf (r : Except String (List Event)) : List Event :=
  match r with
  | Except.ok evs => evs
  | Except.error _ => []

/-- Whether a fallible call returned without raising. -/
def okB {ε α : Type} (e : Except ε α) : Bool :=
  match e with
  | Except.ok _ => true
  | Except.error _ => false

/-- The trace is one frame transmitted `repeatCount + 1` times, each
transmission byte-identical and followed by a sleep of the configured
wait (including after the last). -/
def transmitsRepeated (d : K8056) (evs : List Event) : Prop :=
  ∃ f, evs = List.flatten (List.replicate (d.repeatCount + 1)
                [Event.write f, Event.sleep d.wait])
    ∧ writesOf evs = List.replicate (d.repeatCount + 1) f

/-- `OFF_STATUS = {"value": "Off", "color": "warning"}` /
`ON_STATUS = {"value": "On", "color": "success"}`. -/
structure Status where
  value : String
  color : String
  deriving DecidableEq, Repr

def OFF_STATUS : Status := ⟨"Off", "warning"⟩

def ON_STATUS : Status := ⟨"On", "success"⟩

/-- `PORTS`: port name to relay index, in source (insertion) order. -/
def PORTS : List (String × Int) :=
  [("Mirror", 1), ("LED", 2), ("ThAr", 3), ("Tung", 4)]

/-- The `"object"` entry of `OBSERVING_MODES`: all four ports off. -/
def objectPorts : List (String × Status) :=
  [("Mirror", OFF_STATUS), ("LED", OFF_STATUS),
   ("ThAr", OFF_STATUS), ("Tung", OFF_STATUS)]

/-- The `"dark"` entry of `OBSERVING_MODES`. -/
def darkPorts : List (String × Status) :=
  [("Mirror", ON_STATUS), ("LED", OFF_STATUS),
   ("ThAr", OFF_STATUS), ("Tung", OFF_STATUS)]

/-- The `"flat"` entry of `OBSERVING_MODES`. -/
def flatPorts : List (String × Status) :=
  [("Mirror", ON_STATUS), ("LED", ON_STATUS),
   ("ThAr", OFF_STATUS), ("Tung", OFF_STATUS)]

/-- The `"thar"` entry of `OBSERVING_MODES`. -/
def tharPorts : List (String × Status) :=
  [("Mirror", ON_STATUS), ("LED", OFF_STATUS),
   ("ThAr", ON_STATUS), ("Tung", OFF_STATUS)]

/-- `Spectrograph.OBSERVING_MODES`: mode name to the target status of
every port, in source (insertion) order. -/
def OBSERVING_MODES : List (String × List (String × Status)) :=
  [("object", objectPorts), ("dark", darkPorts),
   ("flat", flatPorts), ("thar", tharPorts)]

/-- A call made on the driver by the controller: `device.set(port)` or
`device.clear(port)` (both with the default `address=1`). -/
inductive RelayCall where
  | set (relay : Int) (address : Int)
  | clear (relay : Int) (address : Int)
  deriving DecidableEq, Repr

/-- The relay index a call carries. -/
def RelayCall.relay : RelayCall → Int
  | RelayCall.set r _ => r
  | RelayCall.clear r _ => r

/-- An outbound event on the messaging channel (`Instrument.sio.emit`).
The `update_status` payload in the source also carries the instrument
id from the out-of-scope `Instrument` base; only the port map is
modelled.  `spectrograph_changed_ports` forwards the opaque observation
instructions, modelled as a `String`. -/
inductive Emit where
  | update_status (ports : List (String × Status))
  | spectrograph_changed_ports (obs_instructions : String)
  deriving DecidableEq, Repr

/-- Controller state: the optional attached driver (`None` in
simulation) and the `status_dictionary` attribute. -/
structure Spectrograph where
  device : Option K8056
  status_dictionary : List (String × Status)
  deriving DecidableEq, Repr

/-- The class-level initialiser
`status_dictionary = OBSERVING_MODES["object"]`. -/
def Spectrograph.initial_status : List (String × Status) :=
  (List.lookup "object" OBSERVING_MODES).getD []

/-- `Spectrograph.__init__(device, simulator)`: `device = None` when
simulating, else a `K8056` on the serial path with the default
`repeat=0, wait=0`. -/
def Spectrograph.init (simulator : Bool) : Spectrograph :=
  ⟨if simulator then none else some ⟨0, 0⟩, Spectrograph.initial_status⟩

/-- `Spectrograph.turn_on(port)`: `device.set(port)` when a device is
attached, silently nothing otherwise.  The trace pairs the driver call
with the transport events it produced. -/
def Spectrograph.turn_on (s : Spectrograph) (port : Int) :
    Except String (List (RelayCall × List Event)) :=
  match s.device with
  | none => Except.ok []
  | some d => (d.set port 1).map fun evs => [(RelayCall.set port 1, evs)]

/-- `Spectrograph.turn_off(port)`: `device.clear(port)` when a device
is attached, silently nothing otherwise. -/
def Spectrograph.turn_off (s : Spectrograph) (port : Int) :
    Except String (List (RelayCall × List Event)) :=
  match s.device with
  | none => Except.ok []
  | some d => (d.clear port 1).map fun evs => [(RelayCall.clear port 1, evs)]

/-- The loop body of `set_obs_type`: for each `(port_name, settings)`
in order, look up `PORTS[port_name]` and call `turn_on` when
`settings["value"] == "On"`, else `turn_off`; a raised exception aborts
the loop. -/
def Spectrograph.applyPorts (s : Spectrograph) :
    List (String × Status) → Except String (List (RelayCall × List Event))
  | [] => Except.ok []
  | (port_name, settings) :: rest =>
    match List.lookup port_name PORTS with
    | none => Except.error "KeyError"
    | some port_num =>
      match (if settings.value == "On" then s.turn_on port_num
             else s.turn_off port_num) with
      | Except.error e => Except.error e
      | Except.ok step =>
        match s.applyPorts rest with
        | Except.error e => Except.error e
        | Except.ok more => Except.ok (step ++ more)

/-- Result of one successful mode application: the driver calls made
(with their transport events) and the outbound emits. -/
structure ObsResult where
  driver : List (RelayCall × List Event)
  emits : List Emit
  deriving DecidableEq, Repr

/-- The `set_obs_type(mode)` callback: `OBSERVING_MODES[mode]` (a
`KeyError` for an unrecognised mode), the per-port loop, then
`emit("update_status", (id, mode_ports))`.  The first component is the
controller state after the call; the source contains no assignment to
`status_dictionary`, so in every branch it is the prior state. -/
def Spectrograph.set_obs_type (s : Spectrograph) (mode : String) :
    Spectrograph × Except String ObsResult :=
  match List.lookup mode OBSERVING_MODES with
  | none => (s, Except.error "KeyError")
  | some mode_ports =>
    match s.applyPorts mode_ports with
    | Except.error e => (s, Except.error e)
    | Except.ok tr => (s, Except.ok ⟨tr, [Emit.update_status mode_ports]⟩)

/-- The `prepare_observation(mode, obs_instructions)` callback:
`set_obs_type(mode)`, then
`emit("spectrograph_changed_ports", obs_instructions)`; an exception in
`set_obs_type` propagates and the emit never happens. -/
def Spectrograph.prepare_observation (s : Spectrograph)
    (mode obs_instructions : String) : Spectrograph × Except String ObsResult :=
  match s.set_obs_type mode with
  | (s', Except.error e) => (s', Except.error e)
  | (s', Except.ok r) =>
    (s', Except.ok ⟨r.driver,
      r.emits ++ [Emit.spectrograph_changed_ports obs_instructions]⟩)

/-- Modelled from the spec (§4.2 `prepareObservation`): `applyMode(mode)`
followed by forwarding `observationInstructions` unchanged to the
outbound notification channel, with no additional port logic. -/
def applyModeThenForward (s : Spectrograph) (mode obs_instructions : String) :
    Spectrograph × Except String ObsResult :=
  let step := s.set_obs_type mode
  match step.2 with
  | Except.error e => (step.1, Except.error e)
  | Except.ok r =>
    (step.1, Except.ok ⟨r.driver,
      r.emits ++ [Emit.spectrograph_changed_ports obs_instructions]⟩)

/-! ## Driver-level lemmas -/

theorem writesOf_append (xs ys : List Event) :
    writesOf (xs ++ ys) = writesOf xs ++ writesOf ys :=
  List.filterMap_append xs ys _

theorem writesOf_flatten_replicate (n : Nat) (f : List Int) (w : Nat) :
    writesOf (List.flatten (List.replicate n [Event.write f, Event.sleep w]))
      = List.replicate n f := by
  induction n with
  | zero => rfl
  | succ k ih =>
    rw [List.replicate_succ, List.flatten_cons, writesOf_append, ih,
      List.replicate_succ]
    rfl

theorem process_writes (d : K8056) (i b a : Int) :
    writesOf (d.process i b a)
      = List.replicate (d.repeatCount + 1)
          [13, a, i, b, (243 - i - b - a) % 256] :=
  writesOf_flatten_replicate (d.repeatCount + 1) _ d.wait

theorem mask_nonneg (x : Int) : 0 ≤ x % 256 :=
  Int.emod_nonneg x (by norm_num)

theorem mask_lt (x : Int) : x % 256 < 256 :=
  Int.emod_lt_of_pos x (by norm_num)

theorem checkFrame_process (i b a : Int)
    (hi0 : 0 ≤ i) (hi1 : i < 256) (hb0 : 0 ≤ b) (hb1 : b < 256)
    (ha0 : 0 ≤ a) (ha1 : a < 256) :
    checkFrame [13, a, i, b, (243 - i - b - a) % 256] = true := by
  have hc0 : 0 ≤ (243 - i - b - a) % 256 := mask_nonneg _
  have hc1 : (243 - i - b - a) % 256 < 256 := mask_lt _
  simp [checkFrame, isByte, hi0, hi1, hb0, hb1, ha0, ha1, hc0, hc1]

theorem allFramesOk_process (d : K8056) (i b a : Int)
    (hi0 : 0 ≤ i) (hi1 : i < 256) (hb0 : 0 ≤ b) (hb1 : b < 256)
    (ha0 : 0 ≤ a) (ha1 : a < 256) :
    allFramesOk (d.process i b a) = true := by
  rw [allFramesOk, process_writes, List.all_eq_true]
  intro f hf
  rw [List.eq_of_mem_replicate hf]
  exact checkFrame_process i b a hi0 hi1 hb0 hb1 ha0 ha1

theorem process_transmitsRepeated (d : K8056) (i b a : Int) :
    transmitsRepeated d (d.process i b a) :=
  ⟨[13, a, i, b, (243 - i - b - a) % 256], rfl, process_writes d i b a⟩

/-- A `transmitsRepeated` trace performs exactly `repeatCount + 1`
transport writes. -/
theorem transmitsRepeated_length (d : K8056) (evs : List Event)
    (h : transmitsRepeated d evs) :
    (writesOf evs).length = d.repeatCount + 1 := by
  obtain ⟨f, _, hw⟩ := h
  rw [hw, List.length_replicate]

/-- C1: For every command issued by the driver (set, clear, toggle,
set_address, send_byte, emergency_stop, force_address, get_address),
each transmitted frame is exactly 5 bytes of the form
`[13, address, instruction, data, checksum]` with
`checksum = (243 - instruction - data - address) mod 256`. -/
theorem c1_frame_invariant (d : K8056) (relay address new num : Int) :
    allFramesOk (eventsOf (d.set relay address)) = true ∧
    allFramesOk (eventsOf (d.clear relay address)) = true ∧
    allFramesOk (eventsOf (d.toggle relay address)) = true ∧
    allFramesOk (d.set_address new address) = true ∧
    allFramesOk (d.send_byte num address) = true ∧
    allFramesOk d.emergency_stop = true ∧
    allFramesOk d.force_address = true ∧
    allFramesOk d.get_address = true := by
  refine ⟨?_, ?_, ?_, ?_, ?_, ?_, ?_, ?_⟩
  · rw [K8056.set]
    by_cases h : 0 < relay ∧ relay < 10
    · rw [if_pos h]
      exact allFramesOk_process d 83 (relay + 48) (address % 256)
        (by norm_num) (by norm_num) (by omega) (by omega)
        (mask_nonneg _) (mask_lt _)
    · rw [if_neg h]; rfl
  · rw [K8056.clear]
    by_cases h : 0 < relay ∧ relay < 10
    · rw [if_pos h]
      exact allFramesOk_process d 67 (relay + 48) (address % 256)
        (by norm_num) (by norm_num) (by omega) (by omega)
        (mask_nonneg _) (mask_lt _)
    · rw [if_neg h]; rfl
  · rw [K8056.toggle]
    by_cases h : 0 < relay ∧ relay < 10
    · rw [if_pos h]
      exact allFramesOk_process d 84 (relay + 48) (address % 256)
        (by norm_num) (by norm_num) (by omega) (by omega)
        (mask_nonneg _) (mask_lt _)
    · rw [if_neg h]; rfl
  · exact allFramesOk_process d 65 (new % 256) (address % 256)
      (by norm_num) (by norm_num) (mask_nonneg _) (mask_lt _)
      (mask_nonneg _) (mask_lt _)
  · exact allFramesOk_process d 66 (num % 256) (address % 256)
      (by norm_num) (by norm_num) (mask_nonneg _) (mask_lt _)
      (mask_nonneg _) (mask_lt _)
  · exact allFramesOk_process d 69 1 1
      (by norm_num) (by norm_num) (by norm_num) (by norm_num)
      (by norm_num) (by norm_num)
  · exact allFramesOk_process d 70 1 1
      (by norm_num) (by norm_num) (by norm_num) (by norm_num)
      (by norm_num) (by norm_num)
  · exact allFramesOk_process d 68 1 1
      (by norm_num) (by norm_num) (by norm_num) (by norm_num)
      (by norm_num) (by norm_num)

/-- C2: For every configured repeat count `k ≥ 0`, any single driver
command call performs exactly `k + 1` transport writes, all
byte-identical, with a sleep of the configured wait after each
transmission including the last. -/
theorem c2_repeat_writes (d : K8056) (relay address new num : Int)
    (h1 : 0 < relay) (h2 : relay < 10) :
    transmitsRepeated d (eventsOf (d.set relay address)) ∧
    transmitsRepeated d (eventsOf (d.clear relay address)) ∧
    transmitsRepeated d (eventsOf (d.toggle relay address)) ∧
    transmitsRepeated d (d.set_address new address) ∧
    transmitsRepeated d (d.send_byte num address) ∧
    transmitsRepeated d d.emergency_stop ∧
    transmitsRepeated d d.force_address ∧
    transmitsRepeated d d.get_address := by
  refine ⟨?_, ?_, ?_, ?_, ?_, ?_, ?_, ?_⟩
  · rw [K8056.set, if_pos ⟨h1, h2⟩]
    exact process_transmitsRepeated d 83 (relay + 48) (address % 256)
  · rw [K8056.clear, if_pos ⟨h1, h2⟩]
    exact process_transmitsRepeated d 67 (relay + 48) (address % 256)
  · rw [K8056.toggle, if_pos ⟨h1, h2⟩]
    exact process_transmitsRepeated d 84 (relay + 48) (address % 256)
  · exact process_transmitsRepeated d 65 (new % 256) (address % 256)
  · exact process_transmitsRepeated d 66 (num % 256) (address % 256)
  · exact process_transmitsRepeated d 69 1 1
  · exact process_transmitsRepeated d 70 1 1
  · exact process_transmitsRepeated d 68 1 1

theorem c2_repeat_writes_witness :
    transmitsRepeated ⟨2, 3⟩ (eventsOf ((K8056.mk 2 3).set 5 1)) :=
  (c2_repeat_writes ⟨2, 3⟩ 5 1 7 9 (by norm_num) (by norm_num)).1

/-- C3: For every relay index outside `[1,9]`, set, clear and toggle
fail with the invalid-relay error and perform zero transport writes;
for every relay index in `[1,9]` they do not fail. -/
theorem c3_relay_validation (d : K8056) (relay address : Int) :
    (¬ (0 < relay ∧ relay < 10) →
      d.set relay address = Except.error "invalid relay number" ∧
      d.clear relay address = Except.error "invalid relay number" ∧
      d.toggle relay address = Except.error "invalid relay number" ∧
      writesOf (eventsOf (d.set relay address)) = [] ∧
      writesOf (eventsOf (d.clear relay address)) = [] ∧
      writesOf (eventsOf (d.toggle relay address)) = []) ∧
    ((0 < relay ∧ relay < 10) →
      (∃ evs, d.set relay address = Except.ok evs) ∧
      (∃ evs, d.clear relay address = Except.ok evs) ∧
      (∃ evs, d.toggle relay address = Except.ok evs)) := by
  constructor
  · intro h
    rw [K8056.set, K8056.clear, K8056.toggle, if_neg h, if_neg h, if_neg h]
    exact ⟨rfl, rfl, rfl, rfl, rfl, rfl⟩
  · intro h
    rw [K8056.set, K8056.clear, K8056.toggle, if_pos h, if_pos h, if_pos h]
    exact ⟨⟨_, rfl⟩, ⟨_, rfl⟩, ⟨_, rfl⟩⟩

theorem c3_relay_validation_witness :
    ((K8056.mk 0 0).set 0 1 = Except.error "invalid relay number") ∧
    (∃ evs, (K8056.mk 0 0).set 5 1 = Except.ok evs) :=
  ⟨((c3_relay_validation ⟨0, 0⟩ 0 1).1 (by decide)).1,
   ((c3_relay_validation ⟨0, 0⟩ 5 1).2 (by decide)).1⟩

/-- C4: For every valid relay index and every integer address, set
transmits instruction 83 with data byte `relay + 48` and the address
masked to one byte; clear transmits instruction 67 and toggle
instruction 84 with the same encoding. -/
theorem c4_instruction_encoding (d : K8056) (relay address : Int)
    (h1 : 0 < relay) (h2 : relay < 10) :
    writesOf (eventsOf (d.set relay address))
      = List.replicate (d.repeatCount + 1)
          [13, address % 256, 83, relay + 48,
           (243 - 83 - (relay + 48) - address % 256) % 256] ∧
    writesOf (eventsOf (d.clear relay address))
      = List.replicate (d.repeatCount + 1)
          [13, address % 256, 67, relay + 48,
           (243 - 67 - (relay + 48) - address % 256) % 256] ∧
    writesOf (eventsOf (d.toggle relay address))
      = List.replicate (d.repeatCount + 1)
          [13, address % 256, 84, relay + 48,
           (243 - 84 - (relay + 48) - address % 256) % 256] := by
  refine ⟨?_, ?_, ?_⟩
  · rw [K8056.set, if_pos ⟨h1, h2⟩]
    exact process_writes d 83 (relay + 48) (address % 256)
  · rw [K8056.clear, if_pos ⟨h1, h2⟩]
    exact process_writes d 67 (relay + 48) (address % 256)
  · rw [K8056.toggle, if_pos ⟨h1, h2⟩]
    exact process_writes d 84 (relay + 48) (address % 256)

theorem c4_instruction_encoding_witness :
    writesOf (eventsOf ((K8056.mk 1 2).set 5 300))
      = List.replicate 2
          [13, 300 % 256, 83, 5 + 48, (243 - 83 - (5 + 48) - 300 % 256) % 256] :=
  (c4_instruction_encoding ⟨1, 2⟩ 5 300 (by norm_num) (by norm_num)).1

/-! ## Controller-level lemmas -/

/-- A successful lookup in `OBSERVING_MODES` yields one of the four
recognised modes and its static port vector. -/
theorem lookup_modes (mode : String) (ports : List (String × Status))
    (h : List.lookup mode OBSERVING_MODES = some ports) :
    (mode = "object" ∧ ports = objectPorts) ∨
    (mode = "dark" ∧ ports = darkPorts) ∨
    (mode = "flat" ∧ ports = flatPorts) ∨
    (mode = "thar" ∧ ports = tharPorts) := by
  simp only [OBSERVING_MODES, List.lookup] at h
  repeat' split at h
  all_goals simp_all [beq_iff_eq]

/-- C5 (code evaluation at the failing input): a mode application that
succeeds leaves `status_dictionary` at its prior value — the source
never assigns it — so after applying `"dark"` the controller state is
still the initial all-off object vector, not the dark target vector. -/
theorem c5_status_dictionary_stale :
    (((Spectrograph.init false).set_obs_type "dark").1).status_dictionary
        = Spectrograph.initial_status
    ∧ okB (((Spectrograph.init false).set_obs_type "dark").2) = true
    ∧ Spectrograph.initial_status ≠ darkPorts :=
  ⟨rfl, rfl, by decide⟩

/-- C6: applying `"dark"` with a device attached yields the port map
`{Mirror: On, LED: Off, ThAr: Off, Tung: Off}` and issues exactly one
set call on Mirror's relay index 1 followed by three clear calls on
relay indices 2, 3, 4, in that fixed port order. -/
theorem c6_dark_mode (d : K8056) (st : List (String × Status)) :
    ∃ r, (Spectrograph.mk (some d) st).set_obs_type "dark"
        = (⟨some d, st⟩, Except.ok r)
      ∧ r.driver.map Prod.fst
          = [RelayCall.set 1 1, RelayCall.clear 2 1,
             RelayCall.clear 3 1, RelayCall.clear 4 1]
      ∧ r.emits = [Emit.update_status darkPorts] := by
  refine ⟨⟨[(RelayCall.set 1 1, d.process 83 49 1),
            (RelayCall.clear 2 1, d.process 67 50 1),
            (RelayCall.clear 3 1, d.process 67 51 1),
            (RelayCall.clear 4 1, d.process 67 52 1)],
           [Emit.update_status darkPorts]⟩, ?_, rfl, rfl⟩
  rfl

/-- C7: in simulation mode (no device attached) a recognised mode
still yields its static target vector, with an empty driver trace
(zero transport writes), and this is a success, not an error. -/
theorem c7_simulation_no_writes (st : List (String × Status)) (mode : String)
    (ports : List (String × Status))
    (h : List.lookup mode OBSERVING_MODES = some ports) :
    (Spectrograph.mk none st).set_obs_type mode
      = (⟨none, st⟩, Except.ok ⟨[], [Emit.update_status ports]⟩) := by
  rcases lookup_modes mode ports h with ⟨hm, hp⟩ | ⟨hm, hp⟩ | ⟨hm, hp⟩ | ⟨hm, hp⟩ <;>
    subst hm <;> subst hp <;> rfl

theorem c7_simulation_no_writes_witness :
    (Spectrograph.mk none objectPorts).set_obs_type "flat"
      = (⟨none, objectPorts⟩, Except.ok ⟨[], [Emit.update_status flatPorts]⟩) :=
  c7_simulation_no_writes objectPorts "flat" flatPorts (by decide)

/-- C8: an unrecognised mode name fails with the `KeyError` before any
relay command is issued (the result carries no driver trace at all)
and leaves the controller state unchanged from its prior value. -/
theorem c8_unknown_mode (dev : Option K8056) (st : List (String × Status))
    (mode : String) (h : List.lookup mode OBSERVING_MODES = none) :
    (Spectrograph.mk dev st).set_obs_type mode
      = (⟨dev, st⟩, Except.error "KeyError") := by
  unfold Spectrograph.set_obs_type
  rw [h]

theorem c8_unknown_mode_witness :
    (Spectrograph.mk none objectPorts).set_obs_type "bias"
      = (⟨none, objectPorts⟩, Except.error "KeyError") :=
  c8_unknown_mode none objectPorts "bias" (by decide)

/-- C9: `prepare_observation(mode, obs)` is exactly `set_obs_type(mode)`
followed by forwarding the observation instructions unchanged on the
outbound channel, with no additional port logic. -/
theorem c9_prepare_observation_equiv (s : Spectrograph) (mode obs : String) :
    s.prepare_observation mode obs = applyModeThenForward s mode obs := by
  rcases hs : s.set_obs_type mode with ⟨s', r⟩
  unfold Spectrograph.prepare_observation applyModeThenForward
  rw [hs]
  cases r <;> rfl

/-- C10: for every recognised mode, every relay index the controller
passes to the driver comes from the fixed `PORTS` table and lies in
`[1,4]` (hence in the valid range `(0,10)`), so the driver's
invalid-relay branch is unreachable and the mode application with a
device attached never raises it. -/
theorem c10_relay_indices_safe (d : K8056) (st : List (String × Status))
    (mode : String) (ports : List (String × Status))
    (h : List.lookup mode OBSERVING_MODES = some ports) :
    ∃ r, (Spectrograph.mk (some d) st).set_obs_type mode
        = (⟨some d, st⟩, Except.ok r)
      ∧ ∀ c ∈ r.driver.map Prod.fst,
          c.relay ∈ PORTS.map Prod.snd ∧ 1 ≤ c.relay ∧ c.relay ≤ 4
          ∧ 0 < c.relay ∧ c.relay < 10 := by
  rcases lookup_modes mode ports h with ⟨hm, hp⟩ | ⟨hm, hp⟩ | ⟨hm, hp⟩ | ⟨hm, hp⟩ <;>
      subst hm <;> refine ⟨_, rfl, ?_⟩ <;> intro c hc <;> simp at hc
  · rcases hc with rfl | rfl | rfl | rfl <;> decide
  · rcases hc with rfl | rfl | rfl | rfl <;> decide
  · rcases hc with rfl | rfl | rfl | rfl <;> decide
  · rcases hc with rfl | rfl | rfl | rfl <;> decide

theorem c10_relay_indices_safe_witness :
    ∃ r, (Spectrograph.mk (some ⟨0, 0⟩) objectPorts).set_obs_type "thar"
        = (⟨some ⟨0, 0⟩, objectPorts⟩, Except.ok r)
      ∧ ∀ c ∈ r.driver.map Prod.fst,
          c.relay ∈ PORTS.map Prod.snd ∧ 1 ≤ c.relay ∧ c.relay ≤ 4
          ∧ 0 < c.relay ∧ c.relay < 10 :=
  c10_relay_indices_safe ⟨0, 0⟩ objectPorts "thar" tharPorts (by decide)
